import Mathlib

/-!
Verification of the es-labs cooperative scheduler and the lab 2.1
three-task button-monitoring application.

The definitions below are a shallow embedding of the C sources:
  * `schedulerInit` / `schedulerRun` embed `TaskScheduler.cpp`
    (`schedulerInit`, `schedulerRun`); `TaskCtx` embeds `TaskContext_t`.
  * `task1ButtonAndLed`, `task2StatisticsAndBlink`, `task3PeriodicReport`
    embed the three task bodies of `lab2_1_main.cpp`; `Sys` gathers the
    module-level mutable state of that translation unit together with the
    three LED output pins.
Machine integers (`uint32_t`) are modelled as `Nat` with explicit
reduction modulo `2^32` on every arithmetic operation the C code
performs; comparisons act on the already-reduced values, exactly as the
unsigned comparisons of the source do.  The opaque function pointer of a
task is modelled as a numeric tag; the task bodies of this repository do
not touch the scheduler's task table, so `schedulerRun` takes the three
`millis()` readings of one call (`now`, and the two re-reads after the
action ran) as parameters and reports the index of the executed task.
-/

namespace ESLabs

/-- The modulus of `uint32_t` arithmetic, `2^32`. -/
def U32 : Nat := 4294967296

/-- The sentinel `UINT32_MAX` used by `schedulerRun` for `earliest`. -/
def UINT32_MAX : Nat := 4294967295

/-- Addition of `uint32_t` values: `(a + b) % 2^32`. -/
def u32add (a b : Nat) : Nat := (a + b) % U32

/-- Subtraction of `uint32_t` values: wraps modulo `2^32`. -/
def u32sub (a b : Nat) : Nat := (a + U32 - b) % U32

/-- Embedding of `TaskContext_t` (TaskScheduler.h).  The C function
pointer `funcPtr` is modelled as an opaque numeric tag. -/
structure TaskCtx where
  funcPtr : Nat
  period : Nat
  offset : Nat
  nextRun : Nat
  deriving DecidableEq

instance : Inhabited TaskCtx := ⟨⟨0, 0, 0, 0⟩⟩

/-- Array indexing `tasks[i]` (out-of-range reads never occur in the
statements below; a default task stands in for them). -/
def taskAt (ts : List TaskCtx) (i : Nat) : TaskCtx := ts.getD i default

/-- Embedding of `schedulerInit` (TaskScheduler.cpp): each task's
`nextRun` is set to `now + offset` (uint32). -/
def schedulerInit (ts : List TaskCtx) (now : Nat) : List TaskCtx :=
  ts.map fun t => { t with nextRun := u32add now t.offset }

/-- The selection loop of `schedulerRun`: scans the tasks left to right,
keeping the index of the most overdue due task seen so far (`chosen`,
initially none, i.e. `-1` in C) and its deadline (`earliest`, initially
`UINT32_MAX`).  A task at index `i` replaces the current choice iff
`now >= nextRun` and `nextRun < earliest` — strict, so ties keep the
earlier index. -/
def findMostOverdue : List TaskCtx → Nat → Nat → Option Nat → Nat → Option Nat
  | [], _, _, chosen, _ => chosen
  | t :: rest, now, i, chosen, earliest =>
    if t.nextRun ≤ now ∧ t.nextRun < earliest then
      findMostOverdue rest now (i + 1) (some i) t.nextRun
    else
      findMostOverdue rest now (i + 1) chosen earliest

/-- Embedding of `schedulerRun` (TaskScheduler.cpp).  `now` is the
`millis()` reading at entry; `m2` and `m3` are the two `millis()`
re-reads after the chosen action ran (line `if (nextRun < millis())`
and line `nextRun = millis() + period`).  Returns the updated task
table and the index of the executed task, if any. -/
def schedulerRun (ts : List TaskCtx) (now m2 m3 : Nat) :
    List TaskCtx × Option Nat :=
  match findMostOverdue ts now 0 none UINT32_MAX with
  | none => (ts, none)
  | some i =>
    let t := taskAt ts i
    let n1 := u32add t.nextRun t.period
    let n2 := if n1 < m2 then u32add m3 t.period else n1
    (ts.set i { t with nextRun := n2 }, some i)

/-- Button FSM states (`ButtonState_e`, lab2_1_main.cpp). -/
inductive ButtonState where
  | idle
  | debounceDown
  | pressed
  | debounceUp
  deriving DecidableEq

/-- One completed press as published through the one-slot mailbox: the
values written to `g_lastPressDuration` and `g_isShortPress` at publish
time. -/
structure PressEvt where
  duration : Nat
  isShort : Bool
  deriving DecidableEq

/-- Constant `SHORT_PRESS_THRESHOLD_MS` of lab2_1_main.cpp. -/
def SHORT_PRESS_THRESHOLD_MS : Nat := 500

/-- Constant `LED_INDICATOR_DURATION_MS` of lab2_1_main.cpp. -/
def LED_INDICATOR_DURATION_MS : Nat := 1500

/-- Constant `BLINK_HALF_PERIOD_MS` of lab2_1_main.cpp. -/
def BLINK_HALF_PERIOD_MS : Nat := 100

/-- Constant `BLINK_STEPS_SHORT` of lab2_1_main.cpp. -/
def BLINK_STEPS_SHORT : Nat := 10

/-- Constant `BLINK_STEPS_LONG` of lab2_1_main.cpp. -/
def BLINK_STEPS_LONG : Nat := 20

/-- Constant `DEBOUNCE_MS` of lab2_1_main.cpp. -/
def DEBOUNCE_MS : Nat := 50

/-- The module-level mutable state of lab2_1_main.cpp: the shared
globals (`g_newPress` ... `g_totalDurationMs`), the private state of
Task 1 (`s_btnState` ... `s_redLedOffAt`) and of Task 2
(`s_blinkStepsRemaining` ... `s_yellowLedOn`), plus the three LED
output pins (true = HIGH). -/
@[ext]
structure Sys where
  newPress : Bool
  lastPressDuration : Nat
  isShortPress : Bool
  totalPresses : Nat
  shortPresses : Nat
  longPresses : Nat
  totalDurationMs : Nat
  btnState : ButtonState
  debounceStart : Nat
  pressStart : Nat
  pressEnd : Nat
  greenLedOffAt : Nat
  redLedOffAt : Nat
  blinkStepsRemaining : Nat
  blinkLastToggle : Nat
  yellowLedOn : Bool
  ledGreen : Bool
  ledRed : Bool
  ledYellow : Bool
  deriving DecidableEq

/-- The state after `lab2_1Setup`: C zero-initialized globals,
`BTN_IDLE`, and all three LEDs driven LOW. -/
def initSys : Sys :=
  { newPress := false, lastPressDuration := 0, isShortPress := false,
    totalPresses := 0, shortPresses := 0, longPresses := 0,
    totalDurationMs := 0, btnState := .idle, debounceStart := 0,
    pressStart := 0, pressEnd := 0, greenLedOffAt := 0, redLedOffAt := 0,
    blinkStepsRemaining := 0, blinkLastToggle := 0, yellowLedOn := false,
    ledGreen := false, ledRed := false, ledYellow := false }

/-- The FSM switch of `task1ButtonAndLed` (lab2_1_main.cpp).  Besides
the updated state it reports the press event published in this step, if
any (exactly the branch in which the code sets `g_newPress = true`). -/
def task1Fsm (now : Nat) (btnLow : Bool) (s : Sys) : Sys × Option PressEvt :=
  match s.btnState with
  | .idle =>
    if btnLow then
      ({ s with debounceStart := now, btnState := .debounceDown }, none)
    else (s, none)
  | .debounceDown =>
    if !btnLow then
      ({ s with btnState := .idle }, none)
    else if u32sub now s.debounceStart ≥ DEBOUNCE_MS then
      ({ s with pressStart := now, btnState := .pressed }, none)
    else (s, none)
  | .pressed =>
    if !btnLow then
      ({ s with pressEnd := now, debounceStart := now, btnState := .debounceUp }, none)
    else (s, none)
  | .debounceUp =>
    if btnLow then
      ({ s with btnState := .pressed }, none)
    else if u32sub now s.debounceStart ≥ DEBOUNCE_MS then
      let duration := u32sub s.pressEnd s.pressStart
      let isShort := decide (duration < SHORT_PRESS_THRESHOLD_MS)
      let s1 := { s with lastPressDuration := duration, isShortPress := isShort, newPress := true }
      let s2 :=
        if isShort then
          { s1 with ledGreen := true,
                    greenLedOffAt := u32add now LED_INDICATOR_DURATION_MS }
        else
          { s1 with ledRed := true,
                    redLedOffAt := u32add now LED_INDICATOR_DURATION_MS }
      ({ s2 with btnState := .idle }, some ⟨duration, isShort⟩)
    else (s, none)

/-- The indicator auto-off tail of `task1ButtonAndLed`: turn each
indicator LED off once its one-shot deadline has passed, then disarm
the timer. -/
def task1AutoOff (now : Nat) (s : Sys) : Sys :=
  let s1 :=
    if s.greenLedOffAt ≠ 0 ∧ s.greenLedOffAt ≤ now then
      { s with ledGreen := false, greenLedOffAt := 0 }
    else s
  if s1.redLedOffAt ≠ 0 ∧ s1.redLedOffAt ≤ now then
    { s1 with ledRed := false, redLedOffAt := 0 }
  else s1

/-- Embedding of `task1ButtonAndLed` (lab2_1_main.cpp): the FSM switch
followed by the indicator auto-off section.  `now` is the `millis()`
reading, `btnLow` the debounced-pin sample
(`digitalRead(PIN_BUTTON) == LOW`). -/
def task1ButtonAndLed (now : Nat) (btnLow : Bool) (s : Sys) :
    Sys × Option PressEvt :=
  let r := task1Fsm now btnLow s
  (task1AutoOff now r.1, r.2)

/-- Iterated Task 1 executions over a list of `(millis, btnLow)`
samples, collecting the published press events in order. -/
def task1Run : List (Nat × Bool) → Sys → Sys × List PressEvt
  | [], s => (s, [])
  | p :: rest, s =>
    let r1 := task1ButtonAndLed p.1 p.2 s
    let r2 := task1Run rest r1.1
    (r2.1, r1.2.toList ++ r2.2)

/-- Embedding of `task2StatisticsAndBlink` (lab2_1_main.cpp): consume a
pending press event into the counters and arm the blink sequencer, then
advance the sequencer by at most one toggle. -/
def task2StatisticsAndBlink (now : Nat) (s : Sys) : Sys :=
  let s1 :=
    if s.newPress then
      let sa := { s with newPress := false, totalPresses := u32add s.totalPresses 1, totalDurationMs := u32add s.totalDurationMs s.lastPressDuration }
      let sb :=
        if sa.isShortPress then
          { sa with shortPresses := u32add sa.shortPresses 1,
                    blinkStepsRemaining := BLINK_STEPS_SHORT }
        else
          { sa with longPresses := u32add sa.longPresses 1,
                    blinkStepsRemaining := BLINK_STEPS_LONG }
      { sb with ledYellow := true, yellowLedOn := true,
                blinkLastToggle := now }
    else s
  if s1.blinkStepsRemaining > 0 then
    if u32sub now s1.blinkLastToggle ≥ BLINK_HALF_PERIOD_MS then
      let led := !s1.yellowLedOn
      let s2 := { s1 with yellowLedOn := led, ledYellow := led,
                          blinkLastToggle := now,
                          blinkStepsRemaining := s1.blinkStepsRemaining - 1 }
      if s2.blinkStepsRemaining = 0 then
        { s2 with ledYellow := false, yellowLedOn := false }
      else s2
    else s1
  else s1

/-- The snapshot printed by `task3PeriodicReport`. -/
structure Report where
  total : Nat
  shorts : Nat
  longs : Nat
  totalMs : Nat
  avgMs : Nat
  deriving DecidableEq

/-- Embedding of `task3PeriodicReport` (lab2_1_main.cpp): snapshot the
four counters, compute the guarded integer average, reset the
counters; the printed snapshot is returned. -/
def task3PeriodicReport (s : Sys) : Sys × Report :=
  let total := s.totalPresses
  let shorts := s.shortPresses
  let longs := s.longPresses
  let totalMs := s.totalDurationMs
  let avgMs := if total > 0 then totalMs / total else 0
  ({ s with totalPresses := 0, shortPresses := 0, longPresses := 0, totalDurationMs := 0 },
   ⟨total, shorts, longs, totalMs, avgMs⟩)

/-- One scheduled action of the lab 2.1 system: one task body runs to
completion at some time, with some button sample for Task 1. -/
def SysStep (s s' : Sys) : Prop :=
  (∃ now btnLow, s' = (task1ButtonAndLed now btnLow s).1) ∨
  (∃ now, s' = task2StatisticsAndBlink now s) ∨
  s' = (task3PeriodicReport s).1

/-- States reachable from the initial state by any interleaving of the
three task bodies (the scheduler runs at most one per tick). -/
def Reachable (s : Sys) : Prop := Relation.ReflTransGen SysStep initSys s

/-- The blink-sequencer safety property: an idle sequencer
(`stepsRemaining = 0`) has the yellow LED off, both as the sequencer's
logical flag and as the driven output pin. -/
def BlinkInv (s : Sys) : Prop :=
  s.blinkStepsRemaining = 0 → s.yellowLedOn = false ∧ s.ledYellow = false

/-- The counter-consistency property: the total press count equals the
uint32 sum of the short and long counts (all three being uint32
values). -/
def CounterInv (s : Sys) : Prop :=
  s.totalPresses = (s.shortPresses + s.longPresses) % U32 ∧
  s.totalPresses < U32 ∧ s.shortPresses < U32 ∧ s.longPresses < U32

/-- A concrete counter window (3 presses totalling 900 ms), used as a
witness input for the Reporter. -/
def c6Window : Sys :=
  { initSys with totalPresses := 3, shortPresses := 1, longPresses := 2, totalDurationMs := 900 }

/-- A concrete Task 1 state in the up-debounce with a confirmed press
at 100 ms and a provisional release at 600 ms (duration exactly the
500 ms threshold), used as a witness input for the classifier. -/
def c5State : Sys :=
  { initSys with btnState := .debounceUp, debounceStart := 1000, pressStart := 100, pressEnd := 600 }

theorem u32add_eq {a b : Nat} (h : a + b < U32) : u32add a b = a + b :=
  Nat.mod_eq_of_lt h

theorem u32sub_eq {a b : Nat} (hba : b ≤ a) (ha : a < U32) :
    u32sub a b = a - b := by
  unfold u32sub
  have h1 : a + U32 - b = (a - b) + U32 := by omega
  rw [h1, Nat.add_mod_right]
  exact Nat.mod_eq_of_lt (by omega)

theorem taskAt_cons_zero (t : TaskCtx) (rest : List TaskCtx) :
    taskAt (t :: rest) 0 = t := rfl

theorem taskAt_cons_succ (t : TaskCtx) (rest : List TaskCtx) (i : Nat) :
    taskAt (t :: rest) (i + 1) = taskAt rest i := rfl

theorem taskAt_mem :
    ∀ (ts : List TaskCtx) (i : Nat), i < ts.length → taskAt ts i ∈ ts := by
  intro ts
  induction ts with
  | nil => intro i h; exact absurd h (by simp)
  | cons t rest ih =>
    intro i h
    cases i with
    | zero => exact List.mem_cons_self _ _
    | succ i' =>
      rw [taskAt_cons_succ]
      exact List.mem_cons_of_mem _ (ih i' (by simpa using h))

theorem taskAt_set_ne :
    ∀ (ts : List TaskCtx) (i j : Nat) (v : TaskCtx), j ≠ i →
      taskAt (ts.set i v) j = taskAt ts j := by
  intro ts
  induction ts with
  | nil => intro i j v _; rfl
  | cons t rest ih =>
    intro i j v hne
    cases i with
    | zero =>
      cases j with
      | zero => exact absurd rfl hne
      | succ j' => rfl
    | succ i' =>
      cases j with
      | zero => rfl
      | succ j' =>
        show taskAt (rest.set i' v) j' = taskAt rest j'
        exact ih i' j' v (by omega)

theorem taskAt_set_eq :
    ∀ (ts : List TaskCtx) (i : Nat) (v : TaskCtx), i < ts.length →
      taskAt (ts.set i v) i = v := by
  intro ts
  induction ts with
  | nil => intro i v h; exact absurd h (by simp)
  | cons t rest ih =>
    intro i v h
    cases i with
    | zero => rfl
    | succ i' =>
      show taskAt (rest.set i' v) i' = v
      exact ih i' v (by simpa using h)

/-- If no task qualifies (due and strictly below the running threshold),
the selection loop keeps the incoming `chosen`. -/
theorem fmo_none_of_no_cand :
    ∀ (ts : List TaskCtx) (now i0 : Nat) (chosen : Option Nat)
      (earliest : Nat),
    (∀ t ∈ ts, ¬(t.nextRun ≤ now ∧ t.nextRun < earliest)) →
    findMostOverdue ts now i0 chosen earliest = chosen := by
  intro ts
  induction ts with
  | nil => intro _ _ _ _ _; rfl
  | cons t rest ih =>
    intro now i0 chosen earliest h
    have ht := h t (List.mem_cons_self _ _)
    simp only [findMostOverdue, if_neg ht]
    exact ih now (i0 + 1) chosen earliest
      (fun u hu => h u (List.mem_cons_of_mem _ hu))

/-- Characterization of the selection loop when some task qualifies:
the result is `some (i0 + k)` where `k` is the first position holding
the minimum deadline among qualifying tasks. -/
theorem fmo_spec_of_cand :
    ∀ (ts : List TaskCtx) (now i0 : Nat) (chosen : Option Nat)
      (earliest : Nat),
    (∃ t ∈ ts, t.nextRun ≤ now ∧ t.nextRun < earliest) →
    ∃ k, k < ts.length ∧
      findMostOverdue ts now i0 chosen earliest = some (i0 + k) ∧
      (taskAt ts k).nextRun ≤ now ∧ (taskAt ts k).nextRun < earliest ∧
      (∀ j, j < ts.length → (taskAt ts j).nextRun ≤ now →
        (taskAt ts j).nextRun < earliest →
        (taskAt ts k).nextRun ≤ (taskAt ts j).nextRun) ∧
      (∀ j, j < k → (taskAt ts j).nextRun ≤ now →
        (taskAt ts j).nextRun < earliest →
        (taskAt ts k).nextRun < (taskAt ts j).nextRun) := by
  intro ts
  induction ts with
  | nil =>
    intro now i0 chosen earliest h
    exact absurd h (by simp)
  | cons t rest ih =>
    intro now i0 chosen earliest hex
    by_cases hc : t.nextRun ≤ now ∧ t.nextRun < earliest
    · by_cases hrest : ∃ u ∈ rest, u.nextRun ≤ now ∧ u.nextRun < t.nextRun
      · obtain ⟨k', hk'len, heq, hdue, hlt, hmin, hstrict⟩ :=
          ih now (i0 + 1) (some i0) t.nextRun hrest
        refine ⟨k' + 1, by simpa using hk'len, ?_, ?_, ?_, ?_, ?_⟩
        · simp only [findMostOverdue, if_pos hc]
          rw [heq]
          congr 1
          omega
        · rw [taskAt_cons_succ]; exact hdue
        · rw [taskAt_cons_succ]; exact lt_trans hlt hc.2
        · intro j hj hjdue hje
          cases j with
          | zero =>
            rw [taskAt_cons_zero] at hjdue hje ⊢
            rw [taskAt_cons_succ]
            exact le_of_lt hlt
          | succ j' =>
            rw [taskAt_cons_succ] at hjdue hje ⊢
            by_cases hje' : (taskAt rest j').nextRun < t.nextRun
            · exact hmin j' (by simpa using hj) hjdue hje'
            · exact le_of_lt (lt_of_lt_of_le hlt (le_of_not_lt hje'))
        · intro j hj hjdue hje
          cases j with
          | zero =>
            rw [taskAt_cons_zero] at hjdue hje ⊢
            rw [taskAt_cons_succ]
            exact hlt
          | succ j' =>
            rw [taskAt_cons_succ] at hjdue hje ⊢
            by_cases hje' : (taskAt rest j').nextRun < t.nextRun
            · exact hstrict j' (by omega) hjdue hje'
            · exact lt_of_lt_of_le hlt (le_of_not_lt hje')
      · refine ⟨0, by simp, ?_, by rw [taskAt_cons_zero]; exact hc.1,
          by rw [taskAt_cons_zero]; exact hc.2, ?_, by intro j hj; omega⟩
        · simp only [findMostOverdue, if_pos hc]
          rw [fmo_none_of_no_cand rest now (i0 + 1) (some i0) t.nextRun
            (fun u hu hcon => hrest ⟨u, hu, hcon⟩)]
          congr 1
        · intro j hj hjdue hje
          cases j with
          | zero => simp
          | succ j' =>
            rw [taskAt_cons_zero]
            rw [taskAt_cons_succ] at hjdue ⊢
            by_contra hlt'
            push_neg at hlt'
            exact hrest ⟨taskAt rest j', taskAt_mem _ _ (by simpa using hj),
              hjdue, hlt'⟩
    · have hrest : ∃ u ∈ rest, u.nextRun ≤ now ∧ u.nextRun < earliest := by
        obtain ⟨u, hu, hp⟩ := hex
        rcases List.mem_cons.mp hu with h | h
        · exact absurd (h ▸ hp) hc
        · exact ⟨u, h, hp⟩
      obtain ⟨k', hk'len, heq, hdue, hlt, hmin, hstrict⟩ :=
        ih now (i0 + 1) chosen earliest hrest
      refine ⟨k' + 1, by simpa using hk'len, ?_, ?_, ?_, ?_, ?_⟩
      · simp only [findMostOverdue, if_neg hc]
        rw [heq]
        congr 1
        omega
      · rw [taskAt_cons_succ]; exact hdue
      · rw [taskAt_cons_succ]; exact hlt
      · intro j hj hjdue hje
        cases j with
        | zero =>
          rw [taskAt_cons_zero] at hjdue hje
          exact absurd ⟨hjdue, hje⟩ hc
        | succ j' =>
          rw [taskAt_cons_succ] at hjdue hje ⊢
          exact hmin j' (by simpa using hj) hjdue hje
      · intro j hj hjdue hje
        cases j with
        | zero =>
          rw [taskAt_cons_zero] at hjdue hje
          exact absurd ⟨hjdue, hje⟩ hc
        | succ j' =>
          rw [taskAt_cons_succ] at hjdue hje ⊢
          exact hstrict j' (by omega) hjdue hje

/-- Whenever the selection loop answers `some i` it either passed the
incoming `chosen` through or picked a due task of the scanned list. -/
theorem fmo_some_src :
    ∀ (ts : List TaskCtx) (now i0 : Nat) (chosen : Option Nat)
      (earliest i : Nat),
    findMostOverdue ts now i0 chosen earliest = some i →
    chosen = some i ∨
      ∃ k, k < ts.length ∧ i = i0 + k ∧ (taskAt ts k).nextRun ≤ now := by
  intro ts
  induction ts with
  | nil => intro now i0 chosen earliest i h; exact Or.inl h
  | cons t rest ih =>
    intro now i0 chosen earliest i h
    simp only [findMostOverdue] at h
    by_cases hc : t.nextRun ≤ now ∧ t.nextRun < earliest
    · rw [if_pos hc] at h
      rcases ih now (i0 + 1) (some i0) t.nextRun i h with h1 | ⟨k, hk, hik, hdue⟩
      · right
        refine ⟨0, by simp, ?_, by rw [taskAt_cons_zero]; exact hc.1⟩
        injection h1 with h1
        omega
      · right
        exact ⟨k + 1, by simpa using hk, by omega,
          by rw [taskAt_cons_succ]; exact hdue⟩
    · rw [if_neg hc] at h
      rcases ih now (i0 + 1) chosen earliest i h with h1 | ⟨k, hk, hik, hdue⟩
      · exact Or.inl h1
      · right
        exact ⟨k + 1, by simpa using hk, by omega,
          by rw [taskAt_cons_succ]; exact hdue⟩

/-- Claim C1 (amended): each `schedulerRun` call executes at most one
task action; if no task is due the call is a no-op on the task table;
if some task is due then — provided every deadline is below the
`UINT32_MAX` sentinel — the call runs exactly the due task with the
smallest `nextRun`, ties broken by lowest array index.  (Amendment: a
due task whose `nextRun` equals `UINT32_MAX`, possible only when
`now = UINT32_MAX`, is never selected; see the counterexample.) -/
theorem scheduler_runs_earliest_due (ts : List TaskCtx) (now m2 m3 : Nat)
    (hlen : ts.length ≤ 127)
    (hcap : ∀ t ∈ ts, t.nextRun < UINT32_MAX) :
    ((∀ t ∈ ts, ¬ t.nextRun ≤ now) →
      schedulerRun ts now m2 m3 = (ts, none)) ∧
    ((∃ t ∈ ts, t.nextRun ≤ now) →
      ∃ k, k < ts.length ∧ (schedulerRun ts now m2 m3).2 = some k ∧
        (taskAt ts k).nextRun ≤ now ∧
        (∀ j, j < ts.length → (taskAt ts j).nextRun ≤ now →
          (taskAt ts k).nextRun ≤ (taskAt ts j).nextRun) ∧
        (∀ j, j < k → (taskAt ts j).nextRun ≤ now →
          (taskAt ts k).nextRun < (taskAt ts j).nextRun)) := by
  constructor
  · intro hnone
    have h := fmo_none_of_no_cand ts now 0 none UINT32_MAX
      (fun t ht hcon => hnone t ht hcon.1)
    simp [schedulerRun, h]
  · intro hex
    obtain ⟨u, hu, hdue⟩ := hex
    obtain ⟨k, hk, heq, hkdue, hke, hmin, hstrict⟩ :=
      fmo_spec_of_cand ts now 0 none UINT32_MAX ⟨u, hu, hdue, hcap u hu⟩
    refine ⟨k, hk, ?_, hkdue, ?_, ?_⟩
    · simp [schedulerRun, heq]
    · intro j hj hjdue
      exact hmin j hj hjdue (hcap _ (taskAt_mem ts j hj))
    · intro j hj hjdue
      exact hstrict j hj hjdue (hcap _ (taskAt_mem ts j (by omega)))

/-- Claim C1 counterexample: a single task with
`nextRun = UINT32_MAX` at `now = UINT32_MAX` is due
(`nextRun <= now`), yet `schedulerRun` executes nothing and leaves the
table untouched, contradicting "selects and runs exactly the one with
the smallest nextRun". -/
theorem scheduler_skips_uint32max_deadline :
    (taskAt [⟨0, 10, 0, UINT32_MAX⟩] 0).nextRun ≤ UINT32_MAX ∧
    schedulerRun [⟨0, 10, 0, UINT32_MAX⟩] UINT32_MAX UINT32_MAX UINT32_MAX =
      ([⟨0, 10, 0, UINT32_MAX⟩], none) := by
  decide

/-- Witness for C1: a two-task table at `now = 7`, where task 0
(deadline 0) and task 1 (deadline 5) are both due and task 0 wins. -/
theorem scheduler_runs_earliest_due_witness :
    (([⟨0, 10, 0, 0⟩, ⟨1, 50, 5, 5⟩] : List TaskCtx).length ≤ 127 ∧
      (∀ t ∈ ([⟨0, 10, 0, 0⟩, ⟨1, 50, 5, 5⟩] : List TaskCtx),
        t.nextRun < UINT32_MAX)) ∧
    (((∀ t ∈ ([⟨0, 10, 0, 0⟩, ⟨1, 50, 5, 5⟩] : List TaskCtx),
        ¬ t.nextRun ≤ 7) →
      schedulerRun [⟨0, 10, 0, 0⟩, ⟨1, 50, 5, 5⟩] 7 7 7 =
        ([⟨0, 10, 0, 0⟩, ⟨1, 50, 5, 5⟩], none)) ∧
     ((∃ t ∈ ([⟨0, 10, 0, 0⟩, ⟨1, 50, 5, 5⟩] : List TaskCtx),
        t.nextRun ≤ 7) →
      ∃ k, k < ([⟨0, 10, 0, 0⟩, ⟨1, 50, 5, 5⟩] : List TaskCtx).length ∧
        (schedulerRun [⟨0, 10, 0, 0⟩, ⟨1, 50, 5, 5⟩] 7 7 7).2 = some k ∧
        (taskAt [⟨0, 10, 0, 0⟩, ⟨1, 50, 5, 5⟩] k).nextRun ≤ 7 ∧
        (∀ j, j < ([⟨0, 10, 0, 0⟩, ⟨1, 50, 5, 5⟩] : List TaskCtx).length →
          (taskAt [⟨0, 10, 0, 0⟩, ⟨1, 50, 5, 5⟩] j).nextRun ≤ 7 →
          (taskAt [⟨0, 10, 0, 0⟩, ⟨1, 50, 5, 5⟩] k).nextRun ≤
            (taskAt [⟨0, 10, 0, 0⟩, ⟨1, 50, 5, 5⟩] j).nextRun) ∧
        (∀ j, j < k →
          (taskAt [⟨0, 10, 0, 0⟩, ⟨1, 50, 5, 5⟩] j).nextRun ≤ 7 →
          (taskAt [⟨0, 10, 0, 0⟩, ⟨1, 50, 5, 5⟩] k).nextRun <
            (taskAt [⟨0, 10, 0, 0⟩, ⟨1, 50, 5, 5⟩] j).nextRun))) :=
  ⟨⟨by decide, by decide⟩,
    scheduler_runs_earliest_due [⟨0, 10, 0, 0⟩, ⟨1, 50, 5, 5⟩] 7 7 7
      (by decide) (by decide)⟩

/-- Claim C2 (amended): for an executed task the new deadline is the
old `nextRun` plus `period`, or — when that sum is still strictly
behind the re-read current time — the (second) re-read time plus
`period`; provided the clock is monotone during the call and neither
sum overflows `uint32_t`, the deadline never decreases.  (Amendment:
without the no-overflow proviso the deadline can wrap below its
pre-execution value; see the counterexample.) -/
theorem scheduler_deadline_update (ts : List TaskCtx) (now m2 m3 i : Nat)
    (hrun : (schedulerRun ts now m2 m3).2 = some i)
    (h12 : now ≤ m2) (h23 : m2 ≤ m3)
    (hov1 : (taskAt ts i).nextRun + (taskAt ts i).period < U32)
    (hov2 : m3 + (taskAt ts i).period < U32) :
    (taskAt (schedulerRun ts now m2 m3).1 i).nextRun =
      (if (taskAt ts i).nextRun + (taskAt ts i).period < m2 then
        m3 + (taskAt ts i).period
      else (taskAt ts i).nextRun + (taskAt ts i).period) ∧
    (taskAt ts i).nextRun ≤
      (taskAt (schedulerRun ts now m2 m3).1 i).nextRun := by
  cases hfmo : findMostOverdue ts now 0 none UINT32_MAX with
  | none =>
    exfalso
    simp [schedulerRun, hfmo] at hrun
  | some j =>
    have hji : j = i := by
      simp [schedulerRun, hfmo] at hrun
      exact hrun
    subst hji
    rcases fmo_some_src ts now 0 none UINT32_MAX j hfmo with h | ⟨k, hk, hik, hdue⟩
    · exact absurd h (by simp)
    · have hjlen : j < ts.length := by omega
      have hjdue : (taskAt ts j).nextRun ≤ now := by
        have hjk : j = k := by omega
        rw [hjk]
        exact hdue
      have hA : u32add (taskAt ts j).nextRun (taskAt ts j).period =
          (taskAt ts j).nextRun + (taskAt ts j).period := u32add_eq hov1
      have hB : u32add m3 (taskAt ts j).period =
          m3 + (taskAt ts j).period := u32add_eq hov2
      have hval : (taskAt (schedulerRun ts now m2 m3).1 j).nextRun =
          if (taskAt ts j).nextRun + (taskAt ts j).period < m2 then
            m3 + (taskAt ts j).period
          else (taskAt ts j).nextRun + (taskAt ts j).period := by
        simp only [schedulerRun, hfmo]
        rw [taskAt_set_eq ts j _ hjlen, hA, hB]
      refine ⟨hval, ?_⟩
      rw [hval]
      split_ifs with h
      · omega
      · omega

/-- Claim C2 counterexample: uint32 wrap.  A task with
`nextRun = 2^32 - 5` and `period = 10`, executed at
`now = 2^32 - 5`: the updated deadline wraps to `5`, strictly below
its pre-execution value, contradicting "nextRun is never smaller than
its pre-execution value". -/
theorem scheduler_deadline_wraps_back :
    (schedulerRun [⟨0, 10, 0, 4294967291⟩]
        4294967291 4294967291 4294967291).2 = some 0 ∧
    (taskAt (schedulerRun [⟨0, 10, 0, 4294967291⟩]
        4294967291 4294967291 4294967291).1 0).nextRun = 5 ∧
    (taskAt (schedulerRun [⟨0, 10, 0, 4294967291⟩]
        4294967291 4294967291 4294967291).1 0).nextRun <
      (taskAt [⟨0, 10, 0, 4294967291⟩] 0).nextRun := by
  decide

/-- Witness for C2: a single task with deadline 5 and period 50
executed at time 7; no re-anchoring triggers and the deadline advances
to 55. -/
theorem scheduler_deadline_update_witness :
    ((schedulerRun [⟨0, 50, 5, 5⟩] 7 7 7).2 = some 0 ∧ 7 ≤ 7 ∧
      (taskAt [⟨0, 50, 5, 5⟩] 0).nextRun +
        (taskAt [⟨0, 50, 5, 5⟩] 0).period < U32 ∧
      7 + (taskAt [⟨0, 50, 5, 5⟩] 0).period < U32) ∧
    ((taskAt (schedulerRun [⟨0, 50, 5, 5⟩] 7 7 7).1 0).nextRun =
      (if (taskAt [⟨0, 50, 5, 5⟩] 0).nextRun +
          (taskAt [⟨0, 50, 5, 5⟩] 0).period < 7 then
        7 + (taskAt [⟨0, 50, 5, 5⟩] 0).period
      else (taskAt [⟨0, 50, 5, 5⟩] 0).nextRun +
        (taskAt [⟨0, 50, 5, 5⟩] 0).period) ∧
     (taskAt [⟨0, 50, 5, 5⟩] 0).nextRun ≤
      (taskAt (schedulerRun [⟨0, 50, 5, 5⟩] 7 7 7).1 0).nextRun) :=
  ⟨⟨by decide, by decide, by decide, by decide⟩,
    scheduler_deadline_update [⟨0, 50, 5, 5⟩] 7 7 7 0
      (by decide) (by decide) (by decide) (by decide) (by decide)⟩

/-- Claim C10: `schedulerRun` writes only the selected task's
`nextRun`: on a no-op call the table is returned unchanged, and on an
executing call every other task's descriptor, and the selected task's
`funcPtr`, `period` and `offset`, are unchanged. -/
theorem scheduler_frame (ts : List TaskCtx) (now m2 m3 : Nat)
    (hlen : ts.length ≤ 127) :
    ((schedulerRun ts now m2 m3).2 = none →
      (schedulerRun ts now m2 m3).1 = ts) ∧
    (∀ i, (schedulerRun ts now m2 m3).2 = some i →
      i < ts.length ∧
      (schedulerRun ts now m2 m3).1.length = ts.length ∧
      (∀ j, j ≠ i → taskAt (schedulerRun ts now m2 m3).1 j = taskAt ts j) ∧
      (taskAt (schedulerRun ts now m2 m3).1 i).funcPtr =
        (taskAt ts i).funcPtr ∧
      (taskAt (schedulerRun ts now m2 m3).1 i).period =
        (taskAt ts i).period ∧
      (taskAt (schedulerRun ts now m2 m3).1 i).offset =
        (taskAt ts i).offset) := by
  cases hfmo : findMostOverdue ts now 0 none UINT32_MAX with
  | none =>
    constructor
    · intro _
      simp [schedulerRun, hfmo]
    · intro i hi
      exfalso
      simp [schedulerRun, hfmo] at hi
  | some j =>
    constructor
    · intro h
      exfalso
      simp [schedulerRun, hfmo] at h
    · intro i hi
      have hji : j = i := by
        simp [schedulerRun, hfmo] at hi
        exact hi
      subst hji
      rcases fmo_some_src ts now 0 none UINT32_MAX j hfmo with h | ⟨k, hk, hik, _⟩
      · exact absurd h (by simp)
      have hjlen : j < ts.length := by omega
      refine ⟨hjlen, ?_, ?_, ?_, ?_, ?_⟩
      · simp [schedulerRun, hfmo]
      · intro jj hjj
        simp only [schedulerRun, hfmo]
        exact taskAt_set_ne ts j jj _ hjj
      · simp only [schedulerRun, hfmo]
        rw [taskAt_set_eq ts j _ hjlen]
      · simp only [schedulerRun, hfmo]
        rw [taskAt_set_eq ts j _ hjlen]
      · simp only [schedulerRun, hfmo]
        rw [taskAt_set_eq ts j _ hjlen]

/-- Witness for C10 at a concrete two-task table: task 0 runs, task 1
is untouched. -/
theorem scheduler_frame_witness :
    (([⟨0, 10, 0, 0⟩, ⟨1, 50, 5, 5⟩] : List TaskCtx).length ≤ 127) ∧
    (((schedulerRun [⟨0, 10, 0, 0⟩, ⟨1, 50, 5, 5⟩] 7 7 7).2 = none →
      (schedulerRun [⟨0, 10, 0, 0⟩, ⟨1, 50, 5, 5⟩] 7 7 7).1 =
        [⟨0, 10, 0, 0⟩, ⟨1, 50, 5, 5⟩]) ∧
     (∀ i, (schedulerRun [⟨0, 10, 0, 0⟩, ⟨1, 50, 5, 5⟩] 7 7 7).2 = some i →
      i < ([⟨0, 10, 0, 0⟩, ⟨1, 50, 5, 5⟩] : List TaskCtx).length ∧
      (schedulerRun [⟨0, 10, 0, 0⟩, ⟨1, 50, 5, 5⟩] 7 7 7).1.length =
        ([⟨0, 10, 0, 0⟩, ⟨1, 50, 5, 5⟩] : List TaskCtx).length ∧
      (∀ j, j ≠ i →
        taskAt (schedulerRun [⟨0, 10, 0, 0⟩, ⟨1, 50, 5, 5⟩] 7 7 7).1 j =
          taskAt [⟨0, 10, 0, 0⟩, ⟨1, 50, 5, 5⟩] j) ∧
      (taskAt (schedulerRun [⟨0, 10, 0, 0⟩, ⟨1, 50, 5, 5⟩] 7 7 7).1 i).funcPtr =
        (taskAt [⟨0, 10, 0, 0⟩, ⟨1, 50, 5, 5⟩] i).funcPtr ∧
      (taskAt (schedulerRun [⟨0, 10, 0, 0⟩, ⟨1, 50, 5, 5⟩] 7 7 7).1 i).period =
        (taskAt [⟨0, 10, 0, 0⟩, ⟨1, 50, 5, 5⟩] i).period ∧
      (taskAt (schedulerRun [⟨0, 10, 0, 0⟩, ⟨1, 50, 5, 5⟩] 7 7 7).1 i).offset =
        (taskAt [⟨0, 10, 0, 0⟩, ⟨1, 50, 5, 5⟩] i).offset)) :=
  ⟨by decide,
    scheduler_frame [⟨0, 10, 0, 0⟩, ⟨1, 50, 5, 5⟩] 7 7 7 (by decide)⟩

/-- Task 1 never touches the statistics counters, the accumulated
duration, or the blink sequencer state. -/
theorem task1_frame (now : Nat) (btnLow : Bool) (s : Sys) :
    ((task1ButtonAndLed now btnLow s).1).blinkStepsRemaining =
      s.blinkStepsRemaining ∧
    ((task1ButtonAndLed now btnLow s).1).yellowLedOn = s.yellowLedOn ∧
    ((task1ButtonAndLed now btnLow s).1).ledYellow = s.ledYellow ∧
    ((task1ButtonAndLed now btnLow s).1).blinkLastToggle =
      s.blinkLastToggle ∧
    ((task1ButtonAndLed now btnLow s).1).totalPresses = s.totalPresses ∧
    ((task1ButtonAndLed now btnLow s).1).shortPresses = s.shortPresses ∧
    ((task1ButtonAndLed now btnLow s).1).longPresses = s.longPresses ∧
    ((task1ButtonAndLed now btnLow s).1).totalDurationMs =
      s.totalDurationMs := by
  obtain ⟨np, lpd, isp, tp, sp, lp, tdm, bs, ds, ps, pe, g, r,
    bsr, blt, yl, lg, lr, ly⟩ := s
  cases bs <;>
    simp only [task1ButtonAndLed, task1Fsm, task1AutoOff] <;>
    split_ifs <;> simp

/-- Task 3 never touches the blink sequencer state or the yellow LED. -/
theorem task3_frame (s : Sys) :
    ((task3PeriodicReport s).1).blinkStepsRemaining =
      s.blinkStepsRemaining ∧
    ((task3PeriodicReport s).1).yellowLedOn = s.yellowLedOn ∧
    ((task3PeriodicReport s).1).ledYellow = s.ledYellow := by
  exact ⟨rfl, rfl, rfl⟩

/-- Task 2 preserves the blink-sequencer safety property. -/
theorem task2_preserves_blinkInv (now : Nat) (s : Sys) (h : BlinkInv s) :
    BlinkInv (task2StatisticsAndBlink now s) := by
  obtain ⟨np, lpd, isp, tp, sp, lp, tdm, bs, ds, ps, pe, g, r,
    bsr, blt, yl, lg, lr, ly⟩ := s
  unfold BlinkInv at h ⊢
  unfold task2StatisticsAndBlink
  dsimp only at h ⊢
  split_ifs <;> intro h0 <;> simp_all [BLINK_STEPS_SHORT, BLINK_STEPS_LONG]

/-- Task 1 preserves the blink-sequencer safety property. -/
theorem task1_preserves_blinkInv (now : Nat) (btnLow : Bool) (s : Sys)
    (h : BlinkInv s) :
    BlinkInv ((task1ButtonAndLed now btnLow s).1) := by
  obtain ⟨h1, h2, h3, _, _, _, _, _⟩ := task1_frame now btnLow s
  unfold BlinkInv at h ⊢
  rw [h1, h2, h3]
  exact h

/-- Task 3 preserves the blink-sequencer safety property. -/
theorem task3_preserves_blinkInv (s : Sys) (h : BlinkInv s) :
    BlinkInv ((task3PeriodicReport s).1) := by
  obtain ⟨h1, h2, h3⟩ := task3_frame s
  unfold BlinkInv at h ⊢
  rw [h1, h2, h3]
  exact h

/-- Every reachable state satisfies the blink-sequencer safety
property. -/
theorem reachable_blinkInv (s : Sys) (h : Reachable s) : BlinkInv s := by
  induction h with
  | refl => intro _; exact ⟨rfl, rfl⟩
  | tail _ hbc ih =>
    rcases hbc with ⟨now, btnLow, heq⟩ | ⟨now, heq⟩ | heq
    · rw [heq]; exact task1_preserves_blinkInv now btnLow _ ih
    · rw [heq]; exact task2_preserves_blinkInv now _ ih
    · rw [heq]; exact task3_preserves_blinkInv _ ih

/-- Claim C7: the yellow blink sequence never ends with the LED on — in
every reachable state with `stepsRemaining = 0` the yellow LED flag and
the yellow output pin are both off. -/
theorem blink_sequence_ends_led_off (s : Sys) (h : Reachable s)
    (h0 : s.blinkStepsRemaining = 0) :
    s.yellowLedOn = false ∧ s.ledYellow = false :=
  reachable_blinkInv s h h0

/-- Witness for C7 at the (trivially reachable) initial state. -/
theorem blink_sequence_ends_led_off_witness :
    initSys.yellowLedOn = false ∧ initSys.ledYellow = false :=
  blink_sequence_ends_led_off initSys Relation.ReflTransGen.refl rfl

/-- Task 2 preserves counter consistency. -/
theorem task2_preserves_counterInv (now : Nat) (s : Sys)
    (h : CounterInv s) :
    CounterInv (task2StatisticsAndBlink now s) := by
  have hkey : ∀ a b : Nat, ((a + b) % U32 + 1) % U32 =
      ((a + 1) % U32 + b) % U32 := by
    intro a b
    rw [Nat.mod_add_mod, Nat.mod_add_mod]
    congr 1
    omega
  have hkeyL : ∀ a b : Nat, ((a + b) % U32 + 1) % U32 =
      (a + (b + 1) % U32) % U32 := by
    intro a b
    rw [Nat.mod_add_mod, Nat.add_mod_mod, Nat.add_assoc]
  have hU : 0 < U32 := by decide
  obtain ⟨np, lpd, isp, tp, sp, lp, tdm, bs, ds, ps, pe, g, r,
    bsr, blt, yl, lg, lr, ly⟩ := s
  unfold CounterInv at h ⊢
  unfold task2StatisticsAndBlink u32add
  dsimp only at h ⊢
  obtain ⟨he, h1, h2, h3⟩ := h
  split_ifs <;>
    dsimp only <;>
    refine ⟨?_, ?_, ?_, ?_⟩ <;>
    first
      | exact he
      | exact h1
      | exact h2
      | exact h3
      | exact Nat.mod_lt _ hU
      | (rw [he]; exact hkey _ _)
      | (rw [he]; exact hkeyL _ _)

/-- Task 1 preserves counter consistency. -/
theorem task1_preserves_counterInv (now : Nat) (btnLow : Bool) (s : Sys)
    (h : CounterInv s) :
    CounterInv ((task1ButtonAndLed now btnLow s).1) := by
  obtain ⟨_, _, _, _, h5, h6, h7, h8⟩ := task1_frame now btnLow s
  unfold CounterInv at h ⊢
  rw [h5, h6, h7]
  exact h

/-- Task 3 preserves (re-establishes) counter consistency. -/
theorem task3_preserves_counterInv (s : Sys) (h : CounterInv s) :
    CounterInv ((task3PeriodicReport s).1) := by
  simp [CounterInv, task3PeriodicReport, U32]

/-- Every reachable state satisfies counter consistency. -/
theorem reachable_counterInv (s : Sys) (h : Reachable s) : CounterInv s := by
  induction h with
  | refl => exact ⟨rfl, by decide, by decide, by decide⟩
  | tail _ hbc ih =>
    rcases hbc with ⟨now, btnLow, heq⟩ | ⟨now, heq⟩ | heq
    · rw [heq]; exact task1_preserves_counterInv now btnLow _ ih
    · rw [heq]; exact task2_preserves_counterInv now _ ih
    · rw [heq]; exact task3_preserves_counterInv _ ih

/-- Claim C9: starting from the all-zero initial state, in every
reachable state — in particular after every Statistics or Reporter
execution — the total press count equals the (uint32) sum of the short
and long counts. -/
theorem counters_total_eq_short_plus_long (s : Sys) (h : Reachable s) :
    s.totalPresses = (s.shortPresses + s.longPresses) % U32 :=
  (reachable_counterInv s h).1

/-- Witness for C9 at the (trivially reachable) initial state. -/
theorem counters_total_eq_short_plus_long_witness :
    initSys.totalPresses = (initSys.shortPresses + initSys.longPresses) % U32 :=
  counters_total_eq_short_plus_long initSys Relation.ReflTransGen.refl

/-- Claim C6: every Reporter run computes the guarded integer average —
`totalDurationMs / totalPresses`, `0` on an empty window, `300` for
three presses totalling 900 ms — and resets all four counters to
zero. -/
theorem reporter_average_and_reset (s : Sys) :
    ((task3PeriodicReport s).2.avgMs =
      if s.totalPresses > 0 then s.totalDurationMs / s.totalPresses
      else 0) ∧
    (s.totalPresses = 0 → (task3PeriodicReport s).2.avgMs = 0) ∧
    (s.totalPresses = 3 → s.totalDurationMs = 900 →
      (task3PeriodicReport s).2.avgMs = 300) ∧
    (task3PeriodicReport s).1.totalPresses = 0 ∧
    (task3PeriodicReport s).1.shortPresses = 0 ∧
    (task3PeriodicReport s).1.longPresses = 0 ∧
    (task3PeriodicReport s).1.totalDurationMs = 0 := by
  refine ⟨rfl, ?_, ?_, rfl, rfl, rfl, rfl⟩
  · intro h
    simp [task3PeriodicReport, h]
  · intro h1 h2
    simp [task3PeriodicReport, h1, h2]

/-- Witness for C6 on a window of 3 presses totalling 900 ms. -/
theorem reporter_average_and_reset_witness :
    ((task3PeriodicReport c6Window).2.avgMs =
      if c6Window.totalPresses > 0 then
        c6Window.totalDurationMs / c6Window.totalPresses
      else 0) ∧
    (c6Window.totalPresses = 0 →
      (task3PeriodicReport c6Window).2.avgMs = 0) ∧
    (c6Window.totalPresses = 3 → c6Window.totalDurationMs = 900 →
      (task3PeriodicReport c6Window).2.avgMs = 300) ∧
    (task3PeriodicReport c6Window).1.totalPresses = 0 ∧
    (task3PeriodicReport c6Window).1.shortPresses = 0 ∧
    (task3PeriodicReport c6Window).1.longPresses = 0 ∧
    (task3PeriodicReport c6Window).1.totalDurationMs = 0 :=
  reporter_average_and_reset c6Window

/-- Claim C8: the Button FSM publishes without checking the mailbox.
On a concrete input trace with two complete presses (a 10 ms short one,
then a 530 ms long one) and no intervening Statistics run, the second
publish finds `newPress` already true and overwrites the unconsumed
short event with the long one — overwrite semantics, not drop-new. -/
theorem mailbox_overwrite_on_missed_consumer :
    (task1Run [(0, true), (50, true), (60, false), (110, false)]
      initSys).1.newPress = true ∧
    (task1Run [(0, true), (50, true), (60, false), (110, false)]
      initSys).2 = [⟨10, true⟩] ∧
    (task1Run [(0, true), (50, true), (60, false), (110, false)]
      initSys).1.lastPressDuration = 10 ∧
    (task1Run [(0, true), (50, true), (60, false), (110, false)]
      initSys).1.isShortPress = true ∧
    (task1Run [(120, true), (170, true), (700, false), (750, false)]
      (task1Run [(0, true), (50, true), (60, false), (110, false)]
        initSys).1).1.newPress = true ∧
    (task1Run [(120, true), (170, true), (700, false), (750, false)]
      (task1Run [(0, true), (50, true), (60, false), (110, false)]
        initSys).1).2 = [⟨530, false⟩] ∧
    (task1Run [(120, true), (170, true), (700, false), (750, false)]
      (task1Run [(0, true), (50, true), (60, false), (110, false)]
        initSys).1).1.lastPressDuration = 530 ∧
    (task1Run [(120, true), (170, true), (700, false), (750, false)]
      (task1Run [(0, true), (50, true), (60, false), (110, false)]
        initSys).1).1.isShortPress = false := by
  decide

/-- With both indicator timers disarmed the auto-off section is the
identity. -/
theorem task1AutoOff_disarmed (now : Nat) (s : Sys)
    (hg : s.greenLedOffAt = 0) (hr : s.redLedOffAt = 0) :
    task1AutoOff now s = s := by
  simp [task1AutoOff, hg, hr]

/-- The auto-off section touches only the indicator pins and their
timers. -/
theorem task1AutoOff_proj (now : Nat) (s : Sys) :
    (task1AutoOff now s).btnState = s.btnState ∧
    (task1AutoOff now s).newPress = s.newPress ∧
    (task1AutoOff now s).pressStart = s.pressStart ∧
    (task1AutoOff now s).pressEnd = s.pressEnd ∧
    (task1AutoOff now s).lastPressDuration = s.lastPressDuration ∧
    (task1AutoOff now s).isShortPress = s.isShortPress ∧
    (task1AutoOff now s).debounceStart = s.debounceStart := by
  simp only [task1AutoOff]
  split_ifs <;> simp

/-- `task1Run` distributes over list append. -/
theorem task1Run_append (a b : List (Nat × Bool)) (s : Sys) :
    task1Run (a ++ b) s =
      ((task1Run b (task1Run a s).1).1,
       (task1Run a s).2 ++ (task1Run b (task1Run a s).1).2) := by
  induction a generalizing s with
  | nil => simp [task1Run]
  | cons p rest ih =>
    simp [task1Run, ih, List.append_assoc]

/-- Step: Idle sees LOW — start the down-debounce. -/
theorem step_idle_low (now : Nat) (s : Sys) (hst : s.btnState = .idle)
    (hg : s.greenLedOffAt = 0) (hr : s.redLedOffAt = 0) :
    task1ButtonAndLed now true s =
      ({ s with debounceStart := now, btnState := .debounceDown }, none) := by
  simp [task1ButtonAndLed, task1Fsm, task1AutoOff, hst, hg, hr]

/-- Step: DebounceDown sees LOW before the window elapsed — no
change. -/
theorem step_debounceDown_stay (now : Nat) (s : Sys)
    (hst : s.btnState = .debounceDown)
    (hg : s.greenLedOffAt = 0) (hr : s.redLedOffAt = 0)
    (hlt : u32sub now s.debounceStart < DEBOUNCE_MS) :
    task1ButtonAndLed now true s = (s, none) := by
  simp [task1ButtonAndLed, task1Fsm, task1AutoOff, hst, hg, hr,
    not_le.mpr hlt]

/-- Step: DebounceDown sees LOW with the window elapsed — press
confirmed. -/
theorem step_debounceDown_confirm (now : Nat) (s : Sys)
    (hst : s.btnState = .debounceDown)
    (hg : s.greenLedOffAt = 0) (hr : s.redLedOffAt = 0)
    (hge : u32sub now s.debounceStart ≥ DEBOUNCE_MS) :
    task1ButtonAndLed now true s =
      ({ s with pressStart := now, btnState := .pressed }, none) := by
  simp [task1ButtonAndLed, task1Fsm, task1AutoOff, hst, hg, hr, hge]

/-- Step: DebounceDown sees HIGH — glitch rejected, back to Idle. -/
theorem step_debounceDown_glitch (now : Nat) (s : Sys)
    (hst : s.btnState = .debounceDown)
    (hg : s.greenLedOffAt = 0) (hr : s.redLedOffAt = 0) :
    task1ButtonAndLed now false s = ({ s with btnState := .idle }, none) := by
  simp [task1ButtonAndLed, task1Fsm, task1AutoOff, hst, hg, hr]

/-- Step: Pressed sees LOW — still pressed, no change. -/
theorem step_pressed_stay (now : Nat) (s : Sys)
    (hst : s.btnState = .pressed)
    (hg : s.greenLedOffAt = 0) (hr : s.redLedOffAt = 0) :
    task1ButtonAndLed now true s = (s, none) := by
  simp [task1ButtonAndLed, task1Fsm, task1AutoOff, hst, hg, hr]

/-- Step: Pressed sees HIGH — provisional release recorded. -/
theorem step_pressed_release (now : Nat) (s : Sys)
    (hst : s.btnState = .pressed)
    (hg : s.greenLedOffAt = 0) (hr : s.redLedOffAt = 0) :
    task1ButtonAndLed now false s =
      ({ s with pressEnd := now, debounceStart := now, btnState := .debounceUp }, none) := by
  simp [task1ButtonAndLed, task1Fsm, task1AutoOff, hst, hg, hr]

/-- Step: DebounceUp sees HIGH before the window elapsed — no
change. -/
theorem step_debounceUp_stay (now : Nat) (s : Sys)
    (hst : s.btnState = .debounceUp)
    (hg : s.greenLedOffAt = 0) (hr : s.redLedOffAt = 0)
    (hlt : u32sub now s.debounceStart < DEBOUNCE_MS) :
    task1ButtonAndLed now false s = (s, none) := by
  simp [task1ButtonAndLed, task1Fsm, task1AutoOff, hst, hg, hr,
    not_le.mpr hlt]

/-- Step: DebounceUp sees HIGH with the window elapsed — the press
completes and is published; only fields the auto-off section cannot
touch are stated. -/
theorem step_debounceUp_publish (now : Nat) (s : Sys)
    (hst : s.btnState = .debounceUp)
    (hge : u32sub now s.debounceStart ≥ DEBOUNCE_MS) :
    (task1ButtonAndLed now false s).2 =
      some ⟨u32sub s.pressEnd s.pressStart,
        decide (u32sub s.pressEnd s.pressStart <
          SHORT_PRESS_THRESHOLD_MS)⟩ ∧
    (task1ButtonAndLed now false s).1.btnState = .idle ∧
    (task1ButtonAndLed now false s).1.newPress = true ∧
    (task1ButtonAndLed now false s).1.pressStart = s.pressStart ∧
    (task1ButtonAndLed now false s).1.pressEnd = s.pressEnd ∧
    (task1ButtonAndLed now false s).1.lastPressDuration =
      u32sub s.pressEnd s.pressStart ∧
    (task1ButtonAndLed now false s).1.isShortPress =
      decide (u32sub s.pressEnd s.pressStart <
        SHORT_PRESS_THRESHOLD_MS) := by
  by_cases hd : u32sub s.pressEnd s.pressStart < SHORT_PRESS_THRESHOLD_MS <;>
    simp [task1ButtonAndLed, task1Fsm, hst, hge, hd] <;>
    simp [task1AutoOff] <;>
    split_ifs <;> simp

/-- Running a block of LOW samples inside the down-debounce window
leaves the state unchanged and publishes nothing. -/
theorem run_stay_debounceDown (lows : List (Nat × Bool)) (s : Sys)
    (hst : s.btnState = .debounceDown)
    (hg : s.greenLedOffAt = 0) (hr : s.redLedOffAt = 0)
    (h : ∀ p ∈ lows, p.2 = true ∧ u32sub p.1 s.debounceStart < DEBOUNCE_MS) :
    task1Run lows s = (s, []) := by
  induction lows with
  | nil => rfl
  | cons p rest ih =>
    obtain ⟨hp2, hlt⟩ := h p (List.mem_cons_self _ _)
    have hstep : task1ButtonAndLed p.1 p.2 s = (s, none) := by
      rw [hp2]
      exact step_debounceDown_stay p.1 s hst hg hr hlt
    simp [task1Run, hstep, ih (fun q hq => h q (List.mem_cons_of_mem _ hq))]

/-- Running a block of LOW samples in the Pressed state leaves the
state unchanged and publishes nothing. -/
theorem run_stay_pressed (lows : List (Nat × Bool)) (s : Sys)
    (hst : s.btnState = .pressed)
    (hg : s.greenLedOffAt = 0) (hr : s.redLedOffAt = 0)
    (h : ∀ p ∈ lows, p.2 = true) :
    task1Run lows s = (s, []) := by
  induction lows with
  | nil => rfl
  | cons p rest ih =>
    have hstep : task1ButtonAndLed p.1 p.2 s = (s, none) := by
      rw [h p (List.mem_cons_self _ _)]
      exact step_pressed_stay p.1 s hst hg hr
    simp [task1Run, hstep, ih (fun q hq => h q (List.mem_cons_of_mem _ hq))]

/-- Running a block of HIGH samples inside the up-debounce window
leaves the state unchanged and publishes nothing. -/
theorem run_stay_debounceUp (highs : List (Nat × Bool)) (s : Sys)
    (hst : s.btnState = .debounceUp)
    (hg : s.greenLedOffAt = 0) (hr : s.redLedOffAt = 0)
    (h : ∀ p ∈ highs, p.2 = false ∧
      u32sub p.1 s.debounceStart < DEBOUNCE_MS) :
    task1Run highs s = (s, []) := by
  induction highs with
  | nil => rfl
  | cons p rest ih =>
    obtain ⟨hp2, hlt⟩ := h p (List.mem_cons_self _ _)
    have hstep : task1ButtonAndLed p.1 p.2 s = (s, none) := by
      rw [hp2]
      exact step_debounceUp_stay p.1 s hst hg hr hlt
    simp [task1Run, hstep, ih (fun q hq => h q (List.mem_cons_of_mem _ hq))]

/-- Running a block of HIGH samples from Idle with both indicator
timers disarmed is the identity and publishes nothing. -/
theorem run_idle_high_frozen (highs : List (Nat × Bool)) (s : Sys)
    (hst : s.btnState = .idle)
    (hg : s.greenLedOffAt = 0) (hr : s.redLedOffAt = 0)
    (h : ∀ p ∈ highs, p.2 = false) :
    task1Run highs s = (s, []) := by
  induction highs with
  | nil => rfl
  | cons p rest ih =>
    have hstep : task1ButtonAndLed p.1 p.2 s = (s, none) := by
      rw [h p (List.mem_cons_self _ _)]
      simp [task1ButtonAndLed, task1Fsm, task1AutoOff, hst, hg, hr]
    simp [task1Run, hstep, ih (fun q hq => h q (List.mem_cons_of_mem _ hq))]

/-- Running a block of HIGH samples from Idle publishes nothing and
preserves the FSM state, the mailbox and the press bookkeeping (the
auto-off section may still release an indicator pin). -/
theorem run_idle_highs (highs : List (Nat × Bool)) (s : Sys)
    (hst : s.btnState = .idle) (h : ∀ p ∈ highs, p.2 = false) :
    (task1Run highs s).2 = [] ∧
    (task1Run highs s).1.btnState = .idle ∧
    (task1Run highs s).1.newPress = s.newPress ∧
    (task1Run highs s).1.pressStart = s.pressStart ∧
    (task1Run highs s).1.pressEnd = s.pressEnd ∧
    (task1Run highs s).1.lastPressDuration = s.lastPressDuration ∧
    (task1Run highs s).1.isShortPress = s.isShortPress := by
  induction highs generalizing s with
  | nil => exact ⟨rfl, hst, rfl, rfl, rfl, rfl, rfl⟩
  | cons p rest ih =>
    have hfsm : task1Fsm p.1 p.2 s = (s, none) := by
      rw [h p (List.mem_cons_self _ _)]
      simp [task1Fsm, hst]
    have hstep : task1ButtonAndLed p.1 p.2 s = (task1AutoOff p.1 s, none) := by
      rw [task1ButtonAndLed, hfsm]
    obtain ⟨a1, a2, a3, a4, a5, a6, a7⟩ := task1AutoOff_proj p.1 s
    obtain ⟨b1, b2, b3, b4, b5, b6, b7⟩ :=
      ih (task1AutoOff p.1 s) (a1.trans hst)
        (fun q hq => h q (List.mem_cons_of_mem _ hq))
    refine ⟨?_, ?_, ?_, ?_, ?_, ?_, ?_⟩ <;>
      simp [task1Run, hstep, b1, b2, b3, b4, b5, b6, b7,
        a2, a3, a4, a5, a6]

/-- Claim C3: a LOW phase held stably for at least `DEBOUNCE_MS` and a
following HIGH phase held stably for at least `DEBOUNCE_MS` drive the
FSM Idle → DebounceDown → Pressed → DebounceUp → Idle and publish
exactly one PressEvent, whose duration is the provisional-release
timestamp (first HIGH sample seen in Pressed) minus the
press-confirmed timestamp; the confirmation precedes the release so
the difference is well defined (≥ 0). -/
theorem press_cycle_single_event
    (s0 : Sys) (t0 tc tr tu : Nat)
    (preLow postLow preHigh postHigh : List (Nat × Bool))
    (hst : s0.btnState = .idle)
    (hg : s0.greenLedOffAt = 0) (hr : s0.redLedOffAt = 0)
    (hpre : ∀ p ∈ preLow, p.2 = true ∧ t0 ≤ p.1 ∧ p.1 < t0 + DEBOUNCE_MS)
    (htc1 : t0 + DEBOUNCE_MS ≤ tc) (htc2 : tc < U32)
    (hpost : ∀ p ∈ postLow, p.2 = true)
    (htr1 : tc ≤ tr) (htr2 : tr < U32)
    (hpreH : ∀ p ∈ preHigh, p.2 = false ∧ tr ≤ p.1 ∧
      p.1 < tr + DEBOUNCE_MS ∧ p.1 < U32)
    (htu1 : tr + DEBOUNCE_MS ≤ tu) (htu2 : tu < U32)
    (hpostH : ∀ p ∈ postHigh, p.2 = false) :
    ∃ sB sC sD : Sys,
      task1Run ((t0, true) :: preLow) s0 = (sB, []) ∧
      sB.btnState = .debounceDown ∧
      task1Run (((t0, true) :: preLow) ++ ((tc, true) :: postLow)) s0 =
        (sC, []) ∧
      sC.btnState = .pressed ∧
      task1Run ((((t0, true) :: preLow) ++ ((tc, true) :: postLow)) ++
        ((tr, false) :: preHigh)) s0 = (sD, []) ∧
      sD.btnState = .debounceUp ∧
      (task1Run (((((t0, true) :: preLow) ++ ((tc, true) :: postLow)) ++
        ((tr, false) :: preHigh)) ++ ((tu, false) :: postHigh)) s0).2 =
        [⟨tr - tc, decide (tr - tc < SHORT_PRESS_THRESHOLD_MS)⟩] ∧
      (task1Run (((((t0, true) :: preLow) ++ ((tc, true) :: postLow)) ++
        ((tr, false) :: preHigh)) ++ ((tu, false) :: postHigh))
        s0).1.btnState = .idle ∧
      (task1Run (((((t0, true) :: preLow) ++ ((tc, true) :: postLow)) ++
        ((tr, false) :: preHigh)) ++ ((tu, false) :: postHigh))
        s0).1.newPress = true ∧
      (task1Run (((((t0, true) :: preLow) ++ ((tc, true) :: postLow)) ++
        ((tr, false) :: preHigh)) ++ ((tu, false) :: postHigh))
        s0).1.pressStart = tc ∧
      (task1Run (((((t0, true) :: preLow) ++ ((tc, true) :: postLow)) ++
        ((tr, false) :: preHigh)) ++ ((tu, false) :: postHigh))
        s0).1.pressEnd = tr ∧
      (task1Run (((((t0, true) :: preLow) ++ ((tc, true) :: postLow)) ++
        ((tr, false) :: preHigh)) ++ ((tu, false) :: postHigh))
        s0).1.lastPressDuration = tr - tc ∧
      tc ≤ tr := by
  have hstep1 : task1ButtonAndLed t0 true s0 =
      ({ s0 with debounceStart := t0, btnState := .debounceDown }, none) :=
    step_idle_low t0 s0 hst hg hr
  have hrun1 : task1Run preLow
      { s0 with debounceStart := t0, btnState := .debounceDown } =
      ({ s0 with debounceStart := t0, btnState := .debounceDown }, []) := by
    refine run_stay_debounceDown preLow _ rfl hg hr ?_
    intro p hp
    obtain ⟨hp1, hp2, hp3⟩ := hpre p hp
    refine ⟨hp1, ?_⟩
    show u32sub p.1 t0 < DEBOUNCE_MS
    rw [u32sub_eq hp2 (by omega)]
    omega
  have hseg1 : task1Run ((t0, true) :: preLow) s0 =
      ({ s0 with debounceStart := t0, btnState := .debounceDown }, []) := by
    simp [task1Run, hstep1, hrun1]
  have hstep2 : task1ButtonAndLed tc true
      { s0 with debounceStart := t0, btnState := .debounceDown } =
      ({ s0 with debounceStart := t0, pressStart := tc, btnState := .pressed }, none) := by
    refine step_debounceDown_confirm tc _ rfl hg hr ?_
    show u32sub tc t0 ≥ DEBOUNCE_MS
    rw [u32sub_eq (by omega) htc2]
    omega
  have hrun2 : task1Run postLow
      { s0 with debounceStart := t0, pressStart := tc, btnState := .pressed } =
      ({ s0 with debounceStart := t0, pressStart := tc, btnState := .pressed }, []) :=
    run_stay_pressed postLow _ rfl hg hr hpost
  have hseg2 : task1Run ((tc, true) :: postLow)
      { s0 with debounceStart := t0, btnState := .debounceDown } =
      ({ s0 with debounceStart := t0, pressStart := tc, btnState := .pressed }, []) := by
    simp [task1Run, hstep2, hrun2]
  have hstep3 : task1ButtonAndLed tr false
      { s0 with debounceStart := t0, pressStart := tc, btnState := .pressed } =
      ({ s0 with debounceStart := tr, pressStart := tc, pressEnd := tr, btnState := .debounceUp }, none) :=
    step_pressed_release tr _ rfl hg hr
  have hrun3 : task1Run preHigh
      { s0 with debounceStart := tr, pressStart := tc, pressEnd := tr, btnState := .debounceUp } =
      ({ s0 with debounceStart := tr, pressStart := tc, pressEnd := tr, btnState := .debounceUp }, []) := by
    refine run_stay_debounceUp preHigh _ rfl hg hr ?_
    intro p hp
    obtain ⟨hp1, hp2, hp3, hp4⟩ := hpreH p hp
    refine ⟨hp1, ?_⟩
    show u32sub p.1 tr < DEBOUNCE_MS
    rw [u32sub_eq hp2 hp4]
    omega
  have hseg3 : task1Run ((tr, false) :: preHigh)
      { s0 with debounceStart := t0, pressStart := tc, btnState := .pressed } =
      ({ s0 with debounceStart := tr, pressStart := tc, pressEnd := tr, btnState := .debounceUp }, []) := by
    simp [task1Run, hstep3, hrun3]
  obtain ⟨e1, e2, e3, e4, e5, e6, e7⟩ :=
    step_debounceUp_publish tu
      { s0 with debounceStart := tr, pressStart := tc, pressEnd := tr, btnState := .debounceUp } rfl
      (by
        show u32sub tu tr ≥ DEBOUNCE_MS
        rw [u32sub_eq (by omega) htu2]
        omega)
  obtain ⟨f1, f2, f3, f4, f5, f6, f7⟩ :=
    run_idle_highs postHigh _ e2 hpostH
  have hdur : u32sub tr tc = tr - tc := u32sub_eq htr1 htr2
  have hfull12 : task1Run
      (((t0, true) :: preLow) ++ ((tc, true) :: postLow)) s0 =
      ({ s0 with debounceStart := t0, pressStart := tc, btnState := .pressed }, []) := by
    rw [task1Run_append, hseg1]
    dsimp only
    rw [hseg2]
    rfl
  have hfull123 : task1Run
      ((((t0, true) :: preLow) ++ ((tc, true) :: postLow)) ++
        ((tr, false) :: preHigh)) s0 =
      ({ s0 with debounceStart := tr, pressStart := tc, pressEnd := tr, btnState := .debounceUp }, []) := by
    rw [task1Run_append, hfull12]
    dsimp only
    rw [hseg3]
    rfl
  have hseg4 : task1Run ((tu, false) :: postHigh)
      { s0 with debounceStart := tr, pressStart := tc, pressEnd := tr, btnState := .debounceUp } =
      ((task1Run postHigh
          (task1ButtonAndLed tu false
            { s0 with debounceStart := tr, pressStart := tc, pressEnd := tr, btnState := .debounceUp }).1).1,
       [⟨u32sub tr tc,
         decide (u32sub tr tc < SHORT_PRESS_THRESHOLD_MS)⟩]) := by
    simp [task1Run, e1, f1]
  have hfin : task1Run
      (((((t0, true) :: preLow) ++ ((tc, true) :: postLow)) ++
        ((tr, false) :: preHigh)) ++ ((tu, false) :: postHigh)) s0 =
      ((task1Run postHigh
          (task1ButtonAndLed tu false
            { s0 with debounceStart := tr, pressStart := tc, pressEnd := tr, btnState := .debounceUp }).1).1,
       [⟨u32sub tr tc,
         decide (u32sub tr tc < SHORT_PRESS_THRESHOLD_MS)⟩]) := by
    rw [task1Run_append, hfull123]
    dsimp only
    rw [hseg4]
    rfl
  refine ⟨_, _, _, hseg1, rfl, hfull12, rfl, hfull123, rfl,
    ?_, ?_, ?_, ?_, ?_, ?_, htr1⟩
  · rw [hfin, hdur]
  · rw [hfin]
    exact f2
  · rw [hfin]
    exact f3.trans e3
  · rw [hfin]
    exact f4.trans e4
  · rw [hfin]
    exact f5.trans e5
  · rw [hfin]
    exact (f6.trans e6).trans hdur

/-- Witness for C3: a minimal one-sample-per-phase press cycle at
times 0 (LOW seen), 50 (press confirmed), 360 (release seen) and 410
(release confirmed), yielding one 310 ms short press. -/
theorem press_cycle_single_event_witness :
    ∃ sB sC sD : Sys,
      task1Run ((0, true) :: []) initSys = (sB, []) ∧
      sB.btnState = .debounceDown ∧
      task1Run (((0, true) :: []) ++ ((50, true) :: [])) initSys =
        (sC, []) ∧
      sC.btnState = .pressed ∧
      task1Run ((((0, true) :: []) ++ ((50, true) :: [])) ++
        ((360, false) :: [])) initSys = (sD, []) ∧
      sD.btnState = .debounceUp ∧
      (task1Run (((((0, true) :: []) ++ ((50, true) :: [])) ++
        ((360, false) :: [])) ++ ((410, false) :: [])) initSys).2 =
        [⟨360 - 50, decide (360 - 50 < SHORT_PRESS_THRESHOLD_MS)⟩] ∧
      (task1Run (((((0, true) :: []) ++ ((50, true) :: [])) ++
        ((360, false) :: [])) ++ ((410, false) :: []))
        initSys).1.btnState = .idle ∧
      (task1Run (((((0, true) :: []) ++ ((50, true) :: [])) ++
        ((360, false) :: [])) ++ ((410, false) :: []))
        initSys).1.newPress = true ∧
      (task1Run (((((0, true) :: []) ++ ((50, true) :: [])) ++
        ((360, false) :: [])) ++ ((410, false) :: []))
        initSys).1.pressStart = 50 ∧
      (task1Run (((((0, true) :: []) ++ ((50, true) :: [])) ++
        ((360, false) :: [])) ++ ((410, false) :: []))
        initSys).1.pressEnd = 360 ∧
      (task1Run (((((0, true) :: []) ++ ((50, true) :: [])) ++
        ((360, false) :: [])) ++ ((410, false) :: []))
        initSys).1.lastPressDuration = 360 - 50 ∧
      (50 : Nat) ≤ 360 :=
  press_cycle_single_event initSys 0 50 360 410 [] [] [] []
    rfl rfl rfl (by simp) (by decide) (by decide) (by simp)
    (by decide) (by decide) (by simp) (by decide) (by decide) (by simp)

/-- Claim C4: a LOW pulse that returns HIGH before `DEBOUNCE_MS` has
elapsed is silently absorbed: the FSM reverts from DebounceDown to
Idle, zero PressEvents are published, and the whole state — mailbox,
counters, LED outputs — is unchanged except for the recorded
debounce-start time. -/
theorem short_glitch_absorbed (s0 : Sys) (t0 th : Nat)
    (lows highRest : List (Nat × Bool))
    (hst : s0.btnState = .idle)
    (hg : s0.greenLedOffAt = 0) (hr : s0.redLedOffAt = 0)
    (hlow : ∀ p ∈ lows, p.2 = true ∧ t0 ≤ p.1 ∧
      p.1 < t0 + DEBOUNCE_MS ∧ p.1 < U32)
    (hhigh : ∀ p ∈ highRest, p.2 = false) :
    task1Run ((t0, true) :: lows ++ (th, false) :: highRest) s0 =
      ({ s0 with debounceStart := t0 }, []) := by
  have hstep1 : task1ButtonAndLed t0 true s0 =
      ({ s0 with debounceStart := t0, btnState := .debounceDown }, none) :=
    step_idle_low t0 s0 hst hg hr
  have hrun1 : task1Run lows
      { s0 with debounceStart := t0, btnState := .debounceDown } =
      ({ s0 with debounceStart := t0, btnState := .debounceDown }, []) := by
    refine run_stay_debounceDown lows _ rfl hg hr ?_
    intro p hp
    obtain ⟨hp1, hp2, hp3, hp4⟩ := hlow p hp
    refine ⟨hp1, ?_⟩
    show u32sub p.1 t0 < DEBOUNCE_MS
    rw [u32sub_eq hp2 hp4]
    omega
  have hstep2 : task1ButtonAndLed th false
      { s0 with debounceStart := t0, btnState := .debounceDown } =
      ({ s0 with debounceStart := t0, btnState := .idle }, none) :=
    step_debounceDown_glitch th _ rfl hg hr
  have hback : ({ s0 with debounceStart := t0, btnState := ButtonState.idle } : Sys) =
      { s0 with debounceStart := t0 } := by
    ext <;> simp [hst]
  have hrun2 : task1Run highRest ({ s0 with debounceStart := t0 } : Sys) =
      ({ s0 with debounceStart := t0 }, []) :=
    run_idle_high_frozen highRest _ hst hg hr hhigh
  simp [task1Run, task1Run_append, hstep1, hrun1, hstep2, hback, hrun2]

/-- Witness for C4: a 20 ms LOW glitch (samples at 0 and 20, HIGH
again at 30) starting from the initial state. -/
theorem short_glitch_absorbed_witness :
    task1Run ((0, true) :: [(20, true)] ++ (30, false) :: []) initSys =
      ({ initSys with debounceStart := 0 }, []) :=
  short_glitch_absorbed initSys 0 30 [(20, true)] []
    rfl rfl rfl (by decide) (by simp)

/-- Claim C5: a completed press is classified short exactly when its
duration is strictly below the 500 ms threshold (so duration 500 is
long and duration 499 is short); the matching indicator LED is lit and
armed with `offAt = now + LED_INDICATOR_DURATION_MS`. -/
theorem press_classification_boundary (s : Sys) (now : Nat)
    (hst : s.btnState = .debounceUp)
    (hg : s.greenLedOffAt = 0) (hr : s.redLedOffAt = 0)
    (hel : u32sub now s.debounceStart ≥ DEBOUNCE_MS)
    (hnw : now + LED_INDICATOR_DURATION_MS < U32) :
    (task1ButtonAndLed now false s).2 =
      some ⟨u32sub s.pressEnd s.pressStart,
        decide (u32sub s.pressEnd s.pressStart <
          SHORT_PRESS_THRESHOLD_MS)⟩ ∧
    (u32sub s.pressEnd s.pressStart < SHORT_PRESS_THRESHOLD_MS →
      (task1ButtonAndLed now false s).1.ledGreen = true ∧
      (task1ButtonAndLed now false s).1.greenLedOffAt =
        now + LED_INDICATOR_DURATION_MS ∧
      (task1ButtonAndLed now false s).1.ledRed = s.ledRed ∧
      (task1ButtonAndLed now false s).1.redLedOffAt = 0) ∧
    (SHORT_PRESS_THRESHOLD_MS ≤ u32sub s.pressEnd s.pressStart →
      (task1ButtonAndLed now false s).1.ledRed = true ∧
      (task1ButtonAndLed now false s).1.redLedOffAt =
        now + LED_INDICATOR_DURATION_MS ∧
      (task1ButtonAndLed now false s).1.ledGreen = s.ledGreen ∧
      (task1ButtonAndLed now false s).1.greenLedOffAt = 0) := by
  have hno : ¬ (now + LED_INDICATOR_DURATION_MS ≤ now) := by
    unfold LED_INDICATOR_DURATION_MS
    omega
  by_cases hd : u32sub s.pressEnd s.pressStart < SHORT_PRESS_THRESHOLD_MS
  · refine ⟨?_, fun _ => ?_, fun hcon => absurd hd (not_lt.mpr hcon)⟩
    · simp [task1ButtonAndLed, task1Fsm, hst, hel, hd]
    · simp [task1ButtonAndLed, task1Fsm, task1AutoOff, hst, hel, hd,
        hg, hr, u32add_eq hnw, hno]
  · refine ⟨?_, fun hcon => absurd hcon hd, fun _ => ?_⟩
    · simp [task1ButtonAndLed, task1Fsm, hst, hel, hd]
    · simp [task1ButtonAndLed, task1Fsm, task1AutoOff, hst, hel, hd,
        hg, hr, u32add_eq hnw, hno]

/-- Witness for C5 at `c5State` (duration exactly 500 ms, the long
side of the boundary), release-confirmed at time 1050. -/
theorem press_classification_boundary_witness :
    (task1ButtonAndLed 1050 false c5State).2 =
      some ⟨u32sub c5State.pressEnd c5State.pressStart,
        decide (u32sub c5State.pressEnd c5State.pressStart <
          SHORT_PRESS_THRESHOLD_MS)⟩ ∧
    (u32sub c5State.pressEnd c5State.pressStart <
        SHORT_PRESS_THRESHOLD_MS →
      (task1ButtonAndLed 1050 false c5State).1.ledGreen = true ∧
      (task1ButtonAndLed 1050 false c5State).1.greenLedOffAt =
        1050 + LED_INDICATOR_DURATION_MS ∧
      (task1ButtonAndLed 1050 false c5State).1.ledRed = c5State.ledRed ∧
      (task1ButtonAndLed 1050 false c5State).1.redLedOffAt = 0) ∧
    (SHORT_PRESS_THRESHOLD_MS ≤
        u32sub c5State.pressEnd c5State.pressStart →
      (task1ButtonAndLed 1050 false c5State).1.ledRed = true ∧
      (task1ButtonAndLed 1050 false c5State).1.redLedOffAt =
        1050 + LED_INDICATOR_DURATION_MS ∧
      (task1ButtonAndLed 1050 false c5State).1.ledGreen =
        c5State.ledGreen ∧
      (task1ButtonAndLed 1050 false c5State).1.greenLedOffAt = 0) :=
  press_classification_boundary c5State 1050 rfl rfl rfl
    (by decide) (by decide)

end ESLabs
